import Mathlib

/-!
Shallow embedding of the utility layer of iwgtk (`src/utilities.c`):
the echo-suppressing remote-property synchronizer (`set_remote_property`
and its completion handler `set_remote_property_callback`), the generic
validation completion handler (`validation_callback` with its error-table
scan), and the dictionary lookup helper (`lookup_property`).

GVariant values are modelled as an inductive type with decidable
structural equality (`g_variant_equal`).  A GDBus proxy is modelled by
its interface name together with its table of cached properties.
Side effects (remote calls issued, log lines written to stderr,
notifications sent, callback invocations, unref calls) are made explicit
as returned effect records.  Behaviour that is undefined in the C source
(a NULL operand reaching `g_variant_equal`, the error-table scan running
past the end of the table) is represented explicitly: by a
`nullComparison` flag, and by `Option` with `none` for the scan.
-/

namespace Iwgtk

/-- A GVariant value: an immutable tagged value compared by structural
equality, as `g_variant_equal` does. -/
inductive GVariant where
  | vBoolean : Bool → GVariant
  | vString : String → GVariant
  | vNumeric : Int → GVariant
deriving DecidableEq, Repr

/-- A GDBus proxy: interface name plus the locally cached property store
(`g_dbus_proxy_get_interface_name`, `g_dbus_proxy_get_cached_property`). -/
structure GDBusProxy where
  interface_name : String
  cached_properties : List (String × GVariant)
deriving DecidableEq, Repr

/-- Model of `g_dbus_proxy_get_cached_property`: the last-known value of the named
property, or `none` (NULL) when the proxy holds no cached value for it. -/
def g_dbus_proxy_get_cached_property (proxy : GDBusProxy) (property : String) :
    Option GVariant :=
  (List.find? (fun e => e.1 = property) proxy.cached_properties).map Prod.snd

/-- The `FailureClosure` struct: the property name and the opaque context
(`data`) for the caller-supplied failure callback.  Invoking
`failure->callback(failure->data)` is modelled by recording `data` in the
effect record of the completion handler. -/
structure FailureClosure (α : Type) where
  property : String
  data : α
deriving DecidableEq, Repr

/-- The outcome `g_dbus_proxy_call_finish` reports to a completion
handler: a returned GVariant on success, or a GError
(domain, code, message) on failure. -/
inductive CallResult where
  | ok : GVariant → CallResult
  | error : Nat → Int → String → CallResult
deriving DecidableEq, Repr

/-- Observable effects of `set_remote_property_callback`: whether the
returned value was unreffed, the stderr lines written, the contexts the
failure callback was invoked with, the number of further remote calls
issued, and whether the closure was freed. -/
structure SetCallbackEffects (α : Type) where
  retUnreffed : Bool
  logLines : List String
  callbackInvocations : List α
  remoteCalls : Nat
  freedClosure : Bool
deriving DecidableEq, Repr

/-- Embedding of `set_remote_property_callback` from `utilities.c`: on success, unref
the returned value; on failure, write one diagnostic line
(the format names the property and the error message) and invoke the failure
callback with its context.  In both branches the closure is freed and no
remote call is issued. -/
def set_remote_property_callback (res : CallResult) (failure : FailureClosure α) :
    SetCallbackEffects α :=
  match res with
  | CallResult.ok _ => ⟨true, [], [], 0, true⟩
  | CallResult.error _ _ msg =>
      ⟨false,
       ["Error setting remote property \x27" ++ failure.property ++
         ("\x27: " ++ (msg ++ "\n"))],
       [failure.data], 0, true⟩

/-- A remote method call issued by `g_dbus_proxy_call`: the method name
and the `(ssv)` argument tuple (interface name, property name, value),
plus the closure passed as user data to the completion handler. -/
structure RemoteCall (α : Type) where
  method_name : String
  arg_interface : String
  arg_property : String
  arg_value : GVariant
  closure : FailureClosure α
deriving DecidableEq, Repr

/-- Observable effects of `set_remote_property`: the remote calls issued,
whether the proposed value and the cached value were unreffed, and
whether `g_variant_equal` received a NULL operand (undefined behaviour
in the C source). -/
structure SyncEffects (α : Type) where
  remoteCalls : List (RemoteCall α)
  proposedUnreffed : Bool
  cachedUnreffed : Bool
  nullComparison : Bool
deriving DecidableEq, Repr

/-- Embedding of `set_remote_property` from `utilities.c`: read the cached value, and
if the proposed value is not structurally equal to it, build a
`FailureClosure` and issue one asynchronous `Properties.Set` call;
otherwise unref (discard) the proposed value and return.  The cached
value is unreffed at the end.  When no cached value exists, the NULL
pointer flows straight into `g_variant_equal`. -/
def set_remote_property (proxy : GDBusProxy) (property : String)
    (value : GVariant) (failure_data : α) : SyncEffects α :=
  match g_dbus_proxy_get_cached_property proxy property with
  | none => ⟨[], false, false, true⟩
  | some value_cached =>
      if value = value_cached then
        ⟨[], true, true, false⟩
      else
        ⟨[⟨"org.freedesktop.DBus.Properties.Set", proxy.interface_name,
            property, value, ⟨property, failure_data⟩⟩],
         false, true, false⟩

/-- Embedding of `lookup_property` from `utilities.c`: iterate over the
dictionary entries in order and return the value of the first entry
whose key equals the queried property (`strcmp == 0`); NULL when the
iteration ends without a match. -/
def lookup_property (dictionary : List (String × GVariant)) (property : String) :
    Option GVariant :=
  match dictionary with
  | [] => none
  | entry :: rest =>
      if property = entry.1 then some entry.2
      else lookup_property rest property

/-- One row of the caller-supplied error table: an error code and the
message for it.  The message pointer may be NULL (`none`); a zero-code
row terminates the table. -/
structure ErrorTableEntry where
  code : Int
  message : Option String
deriving DecidableEq, Repr

/-- The `CallbackMessages` struct: optional success and failure
notification texts and an optional error table. -/
structure CallbackMessages where
  success : Option String
  failure : Option String
  error_table : Option (List ErrorTableEntry)
deriving DecidableEq, Repr

/-- The `while (TRUE)` scan in `validation_callback`: walk the table from
index 0; at the first row whose code matches the error (with the error
domain equal to the iwd error domain) or whose code is 0, stop and take
the message of that row.  A scan that walks past every supplied row reads
unallocated memory in C; that is modelled by `none`. -/
def error_table_scan (err_domain iwd_error_domain : Nat) (err_code : Int) :
    List ErrorTableEntry → Option (Option String)
  | [] => none
  | entry :: rest =>
      if (err_domain = iwd_error_domain ∧ entry.code = err_code) ∨ entry.code = 0 then
        some entry.message
      else
        error_table_scan err_domain iwd_error_domain err_code rest

/-- Observable effects of `validation_callback`: the texts passed to
`send_notification`, the stderr lines, and whether the returned value
was unreffed.  The whole result is `none` when the error-table scan runs
past the end of the table (undefined behaviour in C). -/
structure ValidationEffects where
  notifications : List String
  logLines : List String
  retUnreffed : Bool
deriving DecidableEq, Repr

/-- Embedding of `validation_callback` from `utilities.c`: on success, unref the
returned value and send the optional success notification; on failure,
scan the optional error table for a detailed message, send
`"<failure>: <detailed>"` when one was found and just `<failure>` when
the chosen message is NULL, then always log the raw error message. -/
def validation_callback (iwd_error_domain : Nat) (res : CallResult)
    (messages : Option CallbackMessages) : Option ValidationEffects :=
  match res with
  | CallResult.ok _ =>
      match messages with
      | some m =>
          match m.success with
          | some s => some ⟨[s], [], true⟩
          | none => some ⟨[], [], true⟩
      | none => some ⟨[], [], true⟩
  | CallResult.error dom code msg =>
      match messages with
      | some m =>
          match m.failure with
          | some f =>
              match
                (match m.error_table with
                 | some table => error_table_scan dom iwd_error_domain code table
                 | none => some none) with
              | none => none
              | some (some detailed) =>
                  some ⟨[f ++ ": " ++ detailed], [msg ++ "\n"], false⟩
              | some none =>
                  some ⟨[f], [msg ++ "\n"], false⟩
          | none => some ⟨[], [msg ++ "\n"], false⟩
      | none => some ⟨[], [msg ++ "\n"], false⟩

/-- Predicate: `s` contains `pat` as a contiguous substring. -/
def containsSubstring (s pat : String) : Prop :=
  ∃ a b, s = a ++ pat ++ b

/-! ## Theorems -/

/-- C1: `set_remote_property` issues a remote write if and only if the
proposed value is not structurally equal to the cached value of the named
property; when it does, the write is exactly one
`org.freedesktop.DBus.Properties.Set` call carrying the interface
name, the property name and the proposed value. -/
theorem set_remote_property_write_iff_unequal {α : Type} (proxy : GDBusProxy)
    (property : String) (value c : GVariant) (failure_data : α)
    (hc : g_dbus_proxy_get_cached_property proxy property = some c) :
    ((set_remote_property proxy property value failure_data).remoteCalls ≠ [] ↔
      value ≠ c) ∧
    (value ≠ c →
      (set_remote_property proxy property value failure_data).remoteCalls =
        [⟨"org.freedesktop.DBus.Properties.Set", proxy.interface_name, property,
          value, ⟨property, failure_data⟩⟩]) := by
  unfold set_remote_property
  rw [hc]
  by_cases h : value = c
  · subst h
    simp
  · simp [h]

/-- Witness for C1: a concrete proxy whose cached `Powered` is `true` and
a proposed value `false` produce exactly one `Properties.Set` call. -/
theorem set_remote_property_write_iff_unequal_witness :
    g_dbus_proxy_get_cached_property
        ⟨"net.connman.iwd.Station", [("Powered", GVariant.vBoolean true)]⟩
        "Powered" = some (GVariant.vBoolean true) ∧
    (((set_remote_property
        ⟨"net.connman.iwd.Station", [("Powered", GVariant.vBoolean true)]⟩
        "Powered" (GVariant.vBoolean false) (0 : Nat)).remoteCalls ≠ [] ↔
        GVariant.vBoolean false ≠ GVariant.vBoolean true) ∧
      (GVariant.vBoolean false ≠ GVariant.vBoolean true →
        (set_remote_property
          ⟨"net.connman.iwd.Station", [("Powered", GVariant.vBoolean true)]⟩
          "Powered" (GVariant.vBoolean false) (0 : Nat)).remoteCalls =
          [⟨"org.freedesktop.DBus.Properties.Set", "net.connman.iwd.Station",
            "Powered", GVariant.vBoolean false, ⟨"Powered", 0⟩⟩])) :=
  ⟨by decide,
   set_remote_property_write_iff_unequal _ _ _ _ _ (by decide)⟩

/-- C2: when the proposed value structurally equals the cached value,
`set_remote_property` issues zero remote calls, unrefs (discards) the
proposed value, and returns; with no call issued there is no pending
closure, so the failure callback can never be invoked. -/
theorem set_remote_property_skip_on_equal {α : Type} (proxy : GDBusProxy)
    (property : String) (value : GVariant) (failure_data : α)
    (hc : g_dbus_proxy_get_cached_property proxy property = some value) :
    set_remote_property proxy property value failure_data =
      ⟨[], true, true, false⟩ := by
  unfold set_remote_property
  rw [hc]
  simp

/-- Witness for C2: a concrete proxy whose cached `Powered` is `true` and
a proposed value `true` produce the skip effect. -/
theorem set_remote_property_skip_on_equal_witness :
    g_dbus_proxy_get_cached_property
        ⟨"net.connman.iwd.Station", [("Powered", GVariant.vBoolean true)]⟩
        "Powered" = some (GVariant.vBoolean true) ∧
    set_remote_property
        ⟨"net.connman.iwd.Station", [("Powered", GVariant.vBoolean true)]⟩
        "Powered" (GVariant.vBoolean true) (0 : Nat) =
      ⟨[], true, true, false⟩ :=
  ⟨by decide, set_remote_property_skip_on_equal _ _ _ _ (by decide)⟩

/-- C4: on a successful write the completion handler unrefs the returned
value, writes no log line, invokes no callback and issues no further
call; in the success branch and in the failure branch alike the
`FailureClosure` is freed. -/
theorem set_remote_property_callback_success_effects {α : Type}
    (ret : GVariant) (cl : FailureClosure α) (dom : Nat) (code : Int)
    (msg : String) :
    set_remote_property_callback (CallResult.ok ret) cl =
      ⟨true, [], [], 0, true⟩ ∧
    (set_remote_property_callback (CallResult.error dom code msg) cl).freedClosure
      = true := by
  constructor <;> rfl

/-- C7: the failure completion handler resolves the failure locally:
it issues no further remote call (so no retry), invokes the recovery
callback exactly once with the stored context, and writes exactly one
diagnostic line; being a total function into an effect record, it
surfaces no error to the code that issued the write. -/
theorem set_remote_property_callback_failure_local {α : Type} (dom : Nat)
    (code : Int) (msg : String) (cl : FailureClosure α) :
    (set_remote_property_callback (CallResult.error dom code msg) cl).remoteCalls
      = 0 ∧
    (set_remote_property_callback (CallResult.error dom code msg) cl).callbackInvocations
      = [cl.data] ∧
    (set_remote_property_callback (CallResult.error dom code msg) cl).logLines.length
      = 1 := by
  exact ⟨rfl, rfl, rfl⟩

/-- C9: the comparison step of `set_remote_property` receives a NULL
operand exactly when the proxy holds no cached value for the named
property; equivalently, it is NULL-free (total) precisely under the
precondition that a cached value exists. -/
theorem set_remote_property_null_compare_iff_no_cache {α : Type}
    (proxy : GDBusProxy) (property : String) (value : GVariant)
    (failure_data : α) :
    (set_remote_property proxy property value failure_data).nullComparison = true
      ↔ g_dbus_proxy_get_cached_property proxy property = none := by
  unfold set_remote_property
  cases h : g_dbus_proxy_get_cached_property proxy property with
  | none => simp
  | some c =>
      by_cases hv : value = c
      · simp [hv]
      · simp [hv]

/-- C8: `lookup_property` returns the value bound to the first entry (in
iteration order) whose key equals the queried property, and `none` when
no key matches; the result never depends on the entries after the first
match, so they are never examined. -/
theorem lookup_property_first_match (dictionary pre rest rest'
      : List (String × GVariant)) (property : String) (v : GVariant) :
    lookup_property dictionary property =
      (List.find? (fun e => property = e.1) dictionary).map Prod.snd ∧
    lookup_property (pre ++ (property, v) :: rest) property =
      lookup_property (pre ++ (property, v) :: rest') property := by
  constructor
  · induction dictionary with
    | nil => rfl
    | cons e tail ih =>
        by_cases h : property = e.1
        · simp [lookup_property, List.find?, h]
        · simp [lookup_property, List.find?, h, ih]
  · induction pre with
    | nil => simp [lookup_property]
    | cons e pre ih =>
        by_cases h : property = e.1
        · simp [lookup_property, h]
        · simp [lookup_property, h, ih]

/-- C3: when `set_remote_property` issues a write (cached value present
and unequal), the closure it registers carries the original context, and
on a failed completion the handler invokes the failure callback exactly
once with that context and writes exactly one diagnostic line containing
the property name and the remote error message. -/
theorem issued_write_failure_reports {α : Type} (proxy : GDBusProxy)
    (property : String) (value c : GVariant) (failure_data : α)
    (dom : Nat) (code : Int) (msg : String)
    (hc : g_dbus_proxy_get_cached_property proxy property = some c)
    (hne : value ≠ c) :
    ∃ cl : FailureClosure α,
      (set_remote_property proxy property value failure_data).remoteCalls.map
        RemoteCall.closure = [cl] ∧
      cl.data = failure_data ∧
      (set_remote_property_callback (CallResult.error dom code msg)
        cl).callbackInvocations = [failure_data] ∧
      ∃ line,
        (set_remote_property_callback (CallResult.error dom code msg)
          cl).logLines = [line] ∧
        containsSubstring line property ∧ containsSubstring line msg := by
  refine ⟨⟨property, failure_data⟩, ?_, rfl, rfl, ?_⟩
  · unfold set_remote_property
    rw [hc]
    simp [hne]
  · refine ⟨_, rfl, ?_, ?_⟩
    · exact ⟨"Error setting remote property \x27",
        "\x27: " ++ (msg ++ "\n"), rfl⟩
    · refine ⟨"Error setting remote property \x27" ++ property ++ "\x27: ",
        "\n", ?_⟩
      simp [containsSubstring, String.append_assoc]

/-- Witness for C3: cached `Powered` is `true`, a write of `false` fails
with message `"NotPermitted"`. -/
theorem issued_write_failure_reports_witness :
    g_dbus_proxy_get_cached_property
        ⟨"net.connman.iwd.Station", [("Powered", GVariant.vBoolean true)]⟩
        "Powered" = some (GVariant.vBoolean true) ∧
    GVariant.vBoolean false ≠ GVariant.vBoolean true ∧
    ∃ cl : FailureClosure Nat,
      (set_remote_property
        ⟨"net.connman.iwd.Station", [("Powered", GVariant.vBoolean true)]⟩
        "Powered" (GVariant.vBoolean false) 7).remoteCalls.map
        RemoteCall.closure = [cl] ∧
      cl.data = 7 ∧
      (set_remote_property_callback (CallResult.error 1 2 "NotPermitted")
        cl).callbackInvocations = [7] ∧
      ∃ line,
        (set_remote_property_callback (CallResult.error 1 2 "NotPermitted")
          cl).logLines = [line] ∧
        containsSubstring line ("Powered") ∧ containsSubstring line ("NotPermitted") :=
  ⟨by decide, by decide,
   issued_write_failure_reports
     ⟨"net.connman.iwd.Station", [("Powered", GVariant.vBoolean true)]⟩
     "Powered" (GVariant.vBoolean false) (GVariant.vBoolean true) 7 1 2
     "NotPermitted" (by decide) (by decide)⟩

/-- Helper: the error-table scan skips a block of rows none of which
matches the error or carries code 0. -/
theorem error_table_scan_append_of_no_match (dom iwd : Nat) (code : Int)
    (pre rest : List ErrorTableEntry)
    (h : ∀ e ∈ pre, ¬((dom = iwd ∧ e.code = code) ∨ e.code = 0)) :
    error_table_scan dom iwd code (pre ++ rest) =
      error_table_scan dom iwd code rest := by
  induction pre with
  | nil => rfl
  | cons e pre ih =>
      have he := h e (List.mem_cons_self e pre)
      simp only [List.cons_append, error_table_scan, if_neg he]
      exact ih (fun e' he' => h e' (List.mem_cons_of_mem _ he'))

/-- C10: the error-table scan terminates (returns a defined result) on
every table containing a row that matches the error or carries code 0;
and on a table decomposed around a zero-code sentinel, the result never
depends on the rows after the sentinel, so none of them is read. -/
theorem error_table_scan_total_with_sentinel (dom iwd : Nat) (code : Int)
    (table pre rest : List ErrorTableEntry) (m : Option String)
    (h : ∃ e ∈ table, (dom = iwd ∧ e.code = code) ∨ e.code = 0) :
    (error_table_scan dom iwd code table).isSome = true ∧
    error_table_scan dom iwd code (pre ++ ErrorTableEntry.mk 0 m :: rest) =
      error_table_scan dom iwd code (pre ++ [ErrorTableEntry.mk 0 m]) := by
  constructor
  · induction table with
    | nil => simp at h
    | cons e tail ih =>
        by_cases hcond : (dom = iwd ∧ e.code = code) ∨ e.code = 0
        · simp [error_table_scan, if_pos hcond]
        · obtain ⟨e', he', hc'⟩ := h
          rcases List.mem_cons.mp he' with rfl | hmem
          · exact absurd hc' hcond
          · simp only [error_table_scan, if_neg hcond]
            exact ih ⟨e', hmem, hc'⟩
  · induction pre with
    | nil =>
        simp [error_table_scan]
    | cons e pre ih =>
        by_cases hcond : (dom = iwd ∧ e.code = code) ∨ e.code = 0
        · simp only [List.cons_append, error_table_scan, if_pos hcond]
        · simp only [List.cons_append, error_table_scan, if_neg hcond]
          exact ih

/-- Witness for C10: a two-row table terminated by a zero-code sentinel. -/
theorem error_table_scan_total_with_sentinel_witness :
    (∃ e ∈ [ErrorTableEntry.mk 5 (some ("busy")), ErrorTableEntry.mk 0 none],
      ((3 : Nat) = 3 ∧ e.code = 9) ∨ e.code = 0) ∧
    (error_table_scan 3 3 9
      [ErrorTableEntry.mk 5 (some ("busy")), ErrorTableEntry.mk 0 none]).isSome
      = true ∧
    error_table_scan 3 3 9
        ([ErrorTableEntry.mk 5 (some ("busy"))] ++ ErrorTableEntry.mk 0 none ::
          [ErrorTableEntry.mk 7 (some ("junk"))]) =
      error_table_scan 3 3 9
        ([ErrorTableEntry.mk 5 (some ("busy"))] ++ [ErrorTableEntry.mk 0 none]) :=
  ⟨⟨ErrorTableEntry.mk 0 none, by decide, by decide⟩,
   error_table_scan_total_with_sentinel 3 3 9
     [ErrorTableEntry.mk 5 (some ("busy")), ErrorTableEntry.mk 0 none]
     [ErrorTableEntry.mk 5 (some ("busy"))] [ErrorTableEntry.mk 7 (some ("junk"))]
     none ⟨ErrorTableEntry.mk 0 none, by decide, by decide⟩⟩

/-- C5: when the error code of a failed call (in the iwd error domain) matches
a table row before any zero-code row, the notification text sent is the
failure text, a colon-space separator, and the message of that row. -/
theorem validation_callback_table_match_message (iwd : Nat) (code : Int)
    (msg f d : String) (pre rest : List ErrorTableEntry) (m : CallbackMessages)
    (hf : m.failure = some f)
    (ht : m.error_table =
      some (pre ++ ErrorTableEntry.mk code (some d) :: rest))
    (hcode : code ≠ 0)
    (hpre : ∀ e ∈ pre, e.code ≠ code ∧ e.code ≠ 0) :
    validation_callback iwd (CallResult.error iwd code msg) (some m) =
      some ⟨[f ++ ": " ++ d], [msg ++ "\n"], false⟩ := by
  have hskip : error_table_scan iwd iwd code
      (pre ++ ErrorTableEntry.mk code (some d) :: rest) =
      error_table_scan iwd iwd code
        (ErrorTableEntry.mk code (some d) :: rest) := by
    refine error_table_scan_append_of_no_match iwd iwd code pre _ ?_
    intro e he
    obtain ⟨h1, h2⟩ := hpre e he
    push_neg
    exact ⟨fun _ => h1, h2⟩
  unfold validation_callback
  simp only [hf, ht, hskip]
  simp [error_table_scan]

/-- Witness for C5: error code 2 matches the second row of a three-row
table; the notification is the failure text, a colon-space separator,
and the text of that row. -/
theorem validation_callback_table_match_message_witness :
    validation_callback 4 (CallResult.error 4 2 "denied")
      (some ⟨none, some ("Failed"),
        some [ErrorTableEntry.mk 1 (some ("one")), ErrorTableEntry.mk 2 (some ("two")),
          ErrorTableEntry.mk 0 none]⟩) =
      some ⟨["Failed: two"], ["denied\n"], false⟩ :=
  validation_callback_table_match_message 4 2 "denied" "Failed" "two"
    [ErrorTableEntry.mk 1 (some ("one"))] [ErrorTableEntry.mk 0 none]
    ⟨none, some ("Failed"),
      some [ErrorTableEntry.mk 1 (some ("one")), ErrorTableEntry.mk 2 (some ("two")),
        ErrorTableEntry.mk 0 none]⟩
    rfl rfl (by decide) (by decide)

/-- C6: when no row before the NULL-message zero-code sentinel matches
the error of the failed call, the scan stops at the sentinel and the
notification text sent is just the failure text. -/
theorem validation_callback_sentinel_plain_message (iwd dom : Nat)
    (code : Int) (msg f : String) (pre : List ErrorTableEntry)
    (m : CallbackMessages)
    (hf : m.failure = some f)
    (ht : m.error_table = some (pre ++ [ErrorTableEntry.mk 0 none]))
    (hpre : ∀ e ∈ pre, ¬(dom = iwd ∧ e.code = code) ∧ e.code ≠ 0) :
    validation_callback iwd (CallResult.error dom code msg) (some m) =
      some ⟨[f], [msg ++ "\n"], false⟩ := by
  have hskip : error_table_scan dom iwd code
      (pre ++ [ErrorTableEntry.mk 0 none]) =
      error_table_scan dom iwd code [ErrorTableEntry.mk 0 none] := by
    refine error_table_scan_append_of_no_match dom iwd code pre _ ?_
    intro e he
    obtain ⟨h1, h2⟩ := hpre e he
    push_neg
    exact ⟨fun hd hc => h1 ⟨hd, hc⟩, h2⟩
  unfold validation_callback
  simp only [hf, ht, hskip]
  simp [error_table_scan]

/-- Witness for C6: error code 9 matches no row of the same table; the
notification is just the failure text. -/
theorem validation_callback_sentinel_plain_message_witness :
    validation_callback 4 (CallResult.error 4 9 "denied")
      (some ⟨none, some ("Failed"),
        some [ErrorTableEntry.mk 1 (some ("one")), ErrorTableEntry.mk 2 (some ("two")),
          ErrorTableEntry.mk 0 none]⟩) =
      some ⟨["Failed"], ["denied\n"], false⟩ :=
  validation_callback_sentinel_plain_message 4 4 9 "denied" "Failed"
    [ErrorTableEntry.mk 1 (some ("one")), ErrorTableEntry.mk 2 (some ("two"))]
    ⟨none, some ("Failed"),
      some [ErrorTableEntry.mk 1 (some ("one")), ErrorTableEntry.mk 2 (some ("two")),
        ErrorTableEntry.mk 0 none]⟩
    rfl rfl (by decide)

end Iwgtk
